import Mathlib

/-
Verification of the feature_store presumed-income pipeline
(`feature_store/fs_engineering/presumed_income_irpf/transformer.py` and its
function-based twin `feature_store/pipelines/presumed_income_irpf/transformers/
base_transformer.py`, plus `feature_store/data_preparation/{text_handler,
array_handler}.py`).

The Python code is shallowly embedded: pandas Series cells become
`Option String`/`Option Int` (with `none` modelling NaN/None/null), Python
dicts become association lists, Python exceptions become an explicit
`Except PyErr` result, and the compiled regular expressions are embedded as
token lists interpreted by a small fuelled matcher with Python `re.search`
semantics (existence of a match anywhere in the string, case-insensitive).
-/

/-- Python exception classes that the embedded code can raise. -/
inductive PyErr where
  | valueError
  | typeError
  | attributeError
deriving DecidableEq, Repr

/-! ## Regex embedding (text_handler / _get_irpf_status patterns)

The three patterns compiled in `_get_irpf_status` are alternations of literal
phrases with `\s` between words, `\b` word boundaries, the anchors `^`/`$`,
one `.*`, one `\s*`, and optional single characters (`\s?`, `[.]?`, `[,]?`).
They are represented as lists of alternatives, each alternative a list of
tokens, and interpreted by `matchToksF` below. -/

/-- One token of a compiled pattern. -/
inductive PTok where
  | lit (c : Char)     -- a literal character
  | ws                 -- one whitespace character (from \s)
  | wsOpt              -- \s?
  | litOpt (c : Char)  -- an optional literal character, e.g. [.]?
  | bnd                -- \b word boundary
  | dotStar            -- .*  (any run of non-newline characters)
  | wsStar             -- \s*
  | bos                -- ^ start-of-string anchor
  | eos                -- $ end-of-string anchor
deriving DecidableEq

/-- Python `\s` for the ASCII range (the texts involved use ordinary spaces). -/
def isSpaceChar (c : Char) : Bool :=
  c = ' ' || c = '\t' || c = '\n' || c = '\r' || c = '\x0b' || c = '\x0c'

/-- Python `\w` restricted to ASCII alphanumerics, underscore and the Latin-1
letters used by the Portuguese phrases (0xC0-0xFF except the two signs). -/
def isWordChar (c : Char) : Bool :=
  c.isAlpha || c.isDigit || c = '_' ||
    (0xC0 ≤ c.toNat && c.toNat ≤ 0xFF && c.toNat ≠ 0xD7 && c.toNat ≠ 0xF7)

/-- Lower-casing for IGNORECASE matching: ASCII letters plus the Latin-1
uppercase letters; all pattern characters are already lowercase. -/
def lowerChar (c : Char) : Char :=
  if 'A' ≤ c ∧ c ≤ 'Z' then Char.ofNat (c.toNat + 32)
  else if 0xC0 ≤ c.toNat ∧ c.toNat ≤ 0xDE ∧ c.toNat ≠ 0xD7 then Char.ofNat (c.toNat + 32)
  else c

/-- Python `\b`: the previous and next characters disagree on word-ness
(string edges count as non-word). -/
def atBoundary (prev : Option Char) (s : List Char) : Bool :=
  (match prev with | some c => isWordChar c | none => false) !=
    (match s with | c :: _ => isWordChar c | [] => false)

/-- Does a token list match a prefix of `s`?  `prev` is the character before
the current position (for `\b` and `^`).  The fuel only bounds the recursion
depth: every call decreases (s.length, tokens.length) lexicographically and
token lists never grow, so fuel (|s|+1)*(|tokens|+1) is always sufficient. -/
def matchToksF : Nat → List PTok → Option Char → List Char → Bool
  | 0, _, _, _ => false
  | _ + 1, [], _, _ => true
  | fuel + 1, .bos :: ts, prev, s => prev.isNone && matchToksF fuel ts prev s
  | fuel + 1, .eos :: ts, prev, s =>
      (s.isEmpty || s == ['\n']) && matchToksF fuel ts prev s
  | fuel + 1, .bnd :: ts, prev, s => atBoundary prev s && matchToksF fuel ts prev s
  | _ + 1, .lit _ :: _, _, [] => false
  | fuel + 1, .lit c :: ts, _, x :: rest =>
      (lowerChar x == c) && matchToksF fuel ts (some x) rest
  | _ + 1, .ws :: _, _, [] => false
  | fuel + 1, .ws :: ts, _, x :: rest => isSpaceChar x && matchToksF fuel ts (some x) rest
  | fuel + 1, .wsOpt :: ts, prev, [] => matchToksF fuel ts prev []
  | fuel + 1, .wsOpt :: ts, prev, x :: rest =>
      matchToksF fuel ts prev (x :: rest) ||
        (isSpaceChar x && matchToksF fuel ts (some x) rest)
  | fuel + 1, .litOpt _ :: ts, prev, [] => matchToksF fuel ts prev []
  | fuel + 1, .litOpt c :: ts, prev, x :: rest =>
      matchToksF fuel ts prev (x :: rest) ||
        ((lowerChar x == c) && matchToksF fuel ts (some x) rest)
  | fuel + 1, .dotStar :: ts, prev, [] => matchToksF fuel ts prev []
  | fuel + 1, .dotStar :: ts, prev, x :: rest =>
      matchToksF fuel ts prev (x :: rest) ||
        (!(x == '\n') && matchToksF fuel (.dotStar :: ts) (some x) rest)
  | fuel + 1, .wsStar :: ts, prev, [] => matchToksF fuel ts prev []
  | fuel + 1, .wsStar :: ts, prev, x :: rest =>
      matchToksF fuel ts prev (x :: rest) ||
        (isSpaceChar x && matchToksF fuel (.wsStar :: ts) (some x) rest)

/-- Try every alternative at every position: `re.search` semantics. -/
def searchFrom (alts : List (List PTok)) (fuel : Nat) :
    Option Char → List Char → Bool
  | prev, [] => alts.any (fun t => matchToksF fuel t prev [])
  | prev, x :: rest =>
      alts.any (fun t => matchToksF fuel t prev (x :: rest)) ||
        searchFrom alts fuel (some x) rest

/-- `regex.search(text)` (truthiness), as used by `Series.str.contains`. -/
def reSearch (alts : List (List PTok)) (text : String) : Bool :=
  searchFrom alts
    ((text.data.length + 1) * ((alts.map List.length).foldr Nat.max 0 + 1))
    none text.data

/-- A phrase written in the source as words joined by `\s`: each space becomes
a `ws` token, every other character a literal. -/
def phrase (s : String) : List PTok :=
  s.data.map (fun c => if c = ' ' then PTok.ws else PTok.lit c)

/-- A phrase wrapped in `\b ... \b`. -/
def bphrase (s : String) : List PTok :=
  PTok.bnd :: phrase s ++ [PTok.bnd]

/-- `regex_not_consulted` of `_get_irpf_status`:
`(?:^\s*$|\bdata\sde\snascimento\sinformada\b.*\bestá\sdive|\bnão\scoletado|\bocorreu\suma\sinconsistência\s?[.])`. -/
def regex_not_consulted : List (List PTok) := [
  [PTok.bos, PTok.wsStar, PTok.eos],
  PTok.bnd :: phrase "data de nascimento informada" ++
    [PTok.bnd, PTok.dotStar, PTok.bnd] ++ phrase "está dive",
  PTok.bnd :: phrase "não coletado",
  PTok.bnd :: phrase "ocorreu uma inconsistência" ++ [PTok.wsOpt, PTok.lit '.']]

/-- `regex_not_declared` of `_get_irpf_status` (six `\b...\b` phrases). -/
def regex_not_declared : List (List PTok) := [
  bphrase "consta apresentação de declaração anual de isento",
  bphrase "apresentação da declaração como isento",
  bphrase "declaração consta como isento",
  bphrase "declaração consta como pedido de regularização",
  bphrase "sua declaração não consta na base de dados",
  bphrase "ainda não está na base"]

/-- `regex_tax_refund` of `_get_irpf_status` (eleven alternatives; `[:]` and
`[,]` are literal characters, `[.]?`/`[,]?` optional ones, one `$` anchor). -/
def regex_tax_refund : List (List PTok) := [
  bphrase "situação da restituição: creditada",
  bphrase "somente será permitida por meio do código de acesso",
  PTok.bnd :: phrase "aguardando reagendamento pelo contribuinte" ++ [PTok.litOpt '.'],
  PTok.bnd :: phrase "devolvida à receita federal" ++ [PTok.litOpt ','] ++
    phrase " em razão do não resgate" ++ [PTok.bnd],
  bphrase "enviada para crédito no banco",
  bphrase "reagendada para crédito no banco",
  bphrase "dados da liberação de sua restituição",
  bphrase "declaração está na base de dados",
  bphrase "está na base, utilize o extrato",
  PTok.bnd :: phrase "declaração já foi processada" ++ [PTok.litOpt '.', PTok.eos],
  bphrase "restituição: aguardando devolução pelo banco"]

/-! ## text_handler.apply_regex_series and _get_irpf_status -/

/-- `text_handler.apply_regex_series` at the level of one series cell
(`none` models a NaN/null cell).
With `handle_nan = true` the source computes
`np.where(series.str.contains(regex) & series.notna(), 1, 0)`: a null cell
gives `contains = NaN` and `notna = False`, `NaN & False` is `False` in
pandas object logic, hence `0`.
With `handle_nan = false` it computes `np.where(series.str.contains(regex), 1, 0)`:
a null cell gives `contains = NaN`, and `np.where` treats a NaN condition as
truthy (`bool(nan)` is `True`), hence `1`. -/
def apply_regex_series (rx : List (List PTok)) (v : Option String)
    (handle_nan : Bool) : Nat :=
  match v with
  | some s => if reSearch rx s then 1 else 0
  | none => if handle_nan then 0 else 1

/-- The four flag columns produced by `_get_irpf_status` for one row. -/
structure IrpfStatus where
  irpf_extraction_error : Nat
  irpf_not_declared : Nat
  irpf_tax_refund : Nat
  irpf_tax_to_pay : Nat
deriving DecidableEq, Repr

/-- Row-level embedding of `_get_irpf_status` (identical in
`base_transformer.get_irpf_status`): the error matcher is applied with
`handle_nan=False`, the other two with the default `handle_nan=True`, and
`irpf_tax_to_pay` is `int(1 not in [error, not_declared, tax_refund])`. -/
def get_irpf_status_row (text : Option String) : IrpfStatus :=
  { irpf_extraction_error := apply_regex_series regex_not_consulted text false
    irpf_not_declared := apply_regex_series regex_not_declared text true
    irpf_tax_refund := apply_regex_series regex_tax_refund text true
    irpf_tax_to_pay :=
      if 1 ∈ [apply_regex_series regex_not_consulted text false,
              apply_regex_series regex_not_declared text true,
              apply_regex_series regex_tax_refund text true]
      then 0 else 1 }

/-! ## Star-rating table (_get_star_array / _retrieve_stars) -/

/-- The fixed triangular matrix `base_arr` of `_get_star_array` (row i has
i+1 entries, i = 0..15). -/
def base_arr : List (List Int) := [
  [0],
  [1, 1],
  [1, 1, 1],
  [1, 1, 1, 1],
  [1, 1, 1, 2, 2],
  [1, 1, 2, 2, 3, 3],
  [1, 2, 2, 3, 3, 4, 4],
  [2, 2, 3, 3, 4, 4, 4, 5],
  [2, 3, 3, 4, 4, 4, 5, 5, 5],
  [2, 3, 4, 4, 4, 5, 5, 5, 5, 5],
  [3, 4, 4, 4, 5, 5, 5, 5, 5, 5, 5],
  [3, 4, 4, 5, 5, 5, 5, 5, 5, 5, 5, 5],
  [3, 4, 5, 5, 5, 5, 5, 5, 5, 5, 5, 5, 5],
  [4, 5, 5, 5, 5, 5, 5, 5, 5, 5, 5, 5, 5, 5],
  [4, 5, 5, 5, 5, 5, 5, 5, 5, 5, 5, 5, 5, 5, 5],
  [4, 5, 5, 5, 5, 5, 5, 5, 5, 5, 5, 5, 5, 5, 5, 5]]

/-- `np.array([len(arr) for arr in base_arr]).max()`. -/
def max_len : Nat := (base_arr.map List.length).foldr Nat.max 0

/-- `_get_star_array`: each row right-padded with the sentinel -1 up to the
maximum row width (`np.pad` with constant -1). -/
def star_array : List (List Int) :=
  base_arr.map (fun arr => arr ++ List.replicate (max_len - arr.length) (-1))

/-- Python list-index normalisation: a negative index counts from the end. -/
def pyNorm (n : Nat) (i : Int) : Int := if i < 0 then i + n else i

/-- Python `l[i]`: `some` element for an in-range (possibly negative) index,
`none` models the IndexError raised otherwise. -/
def pyIndex {α : Type} (l : List α) (i : Int) : Option α :=
  if h : 0 ≤ pyNorm l.length i ∧ pyNorm l.length i < (l.length : Int) then
    some (l.get ⟨(pyNorm l.length i).toNat, by omega⟩)
  else none

/-- `_retrieve_stars` (identical in `base_transformer.retrieve_stars`):
declarations ≥ 16 saturate at 5; otherwise `star_arr[decl][refunds]` with the
IndexError of either subscript caught and mapped to -1.  The function is
total: the `none` branches are exactly the caught IndexError. -/
def retrieve_stars (num_declarations num_refunds : Int) : Int :=
  if num_declarations ≥ 16 then 5
  else
    match pyIndex star_array num_declarations with
    | none => -1
    | some row =>
      match pyIndex row num_refunds with
      | none => -1
      | some v => v

/-! ## array_handler.find_le -/

/-- CPython `bisect.bisect_right` loop body, with the loop expressed as fuel
recursion (the fuel passed by `bisect_right` is `ls.length`, which bounds the
number of iterations since `hi - lo` strictly decreases). -/
def bisectAux (ls : List Int) (x : Int) : Nat → Nat → Nat → Nat
  | 0, lo, _ => lo
  | fuel + 1, lo, hi =>
    if lo < hi then
      if x < ls.getD ((lo + hi) / 2) 0 then bisectAux ls x fuel lo ((lo + hi) / 2)
      else bisectAux ls x fuel ((lo + hi) / 2 + 1) hi
    else lo

/-- `bisect.bisect_right(ls, x)` with default lo=0, hi=len(ls). -/
def bisect_right (ls : List Int) (x : Int) : Nat :=
  bisectAux ls x ls.length 0 ls.length

/-- `array_handler.find_le`: `i = bisect_right(ls, x); if i: return ls[i-1];
raise ValueError`.  When the returned index is used it satisfies
`1 ≤ i ≤ len(ls)`, so the `getD` default is never taken. -/
def find_le (ls : List Int) (x : Int) : Except PyErr Int :=
  let i := bisect_right ls x
  if i ≠ 0 then Except.ok (ls.getD (i - 1) 0) else Except.error PyErr.valueError

/-! ## PresumedIncomeResolver (_get_presumed_income) -/

/-- Python `dict.get(k)`: first matching key or `None`. -/
def alistGet {α : Type} : List (String × α) → String → Option α
  | [], _ => none
  | (k, v) :: rest, key => if k = key then some v else alistGet rest key

/-- The nested lookup table `star_dict`:
year bucket (str) → brand token (str) → value bucket (str) → income. -/
abbrev IncomeTable := List (String × List (String × List (String × Int)))

/-- Decimal digit run parser (accumulator style). -/
def parseDigitsAux : List Char → Nat → Option Nat
  | [], acc => some acc
  | c :: cs, acc =>
    if c.isDigit then parseDigitsAux cs (acc * 10 + (c.toNat - '0'.toNat))
    else none

/-- Python `int(s)` on a string: optional surrounding whitespace, optional
sign, a non-empty digit run; anything else raises ValueError. -/
def pyInt (s : String) : Except PyErr Int :=
  match (((s.data.dropWhile isSpaceChar).reverse.dropWhile isSpaceChar).reverse :
      List Char) with
  | [] => Except.error PyErr.valueError
  | '-' :: rest =>
    match rest, parseDigitsAux rest 0 with
    | _ :: _, some n => Except.ok (-(n : Int))
    | _, _ => Except.error PyErr.valueError
  | '+' :: rest =>
    match rest, parseDigitsAux rest 0 with
    | _ :: _, some n => Except.ok (n : Int)
    | _, _ => Except.error PyErr.valueError
  | cs => (parseDigitsAux cs 0).elim (Except.error PyErr.valueError)
      (fun n => Except.ok (n : Int))

/-- One iteration of the `for key, value in irpf_dict.items()` loop of
`_get_presumed_income`: clamp the value to "7" when `int(value) > 7`, then
evaluate `star_dict.get(year_d).get(key).get(value)`.  A missing year or
brand key makes the chained `.get` act on `None` and raise AttributeError;
a missing value bucket yields `None` (which the caller adds to its set). -/
def presumed_income_candidate (star_dict : IncomeTable) (year_d : String)
    (entry : String × String) : Except PyErr (Option Int) :=
  match pyInt entry.2 with
  | Except.error e => Except.error e
  | Except.ok n =>
    match alistGet star_dict year_d with
    | none => Except.error PyErr.attributeError
    | some d2 =>
      match alistGet d2 entry.1 with
      | none => Except.error PyErr.attributeError
      | some d3 => Except.ok (alistGet d3 (if n > 7 then "7" else entry.2))

/-- The candidate set built by `_get_presumed_income`, represented as
(None ∈ set, the numeric members in insertion order). -/
def addCand (s : Bool × List Int) (c : Option Int) : Bool × List Int :=
  match c with
  | none => (true, s.2)
  | some n => (s.1, s.2 ++ [n])

/-- The whole `for` loop of `_get_presumed_income`, propagating the first
raised exception. -/
def addCandidates (star_dict : IncomeTable) (year_d : String) :
    List (String × String) → Bool × List Int → Except PyErr (Bool × List Int)
  | [], acc => Except.ok acc
  | e :: rest, acc =>
    match presumed_income_candidate star_dict year_d e with
    | Except.error err => Except.error err
    | Except.ok c => addCandidates star_dict year_d rest (addCand acc c)

/-- `star_dict.get(year_d, {}).get(branch_pl, {}).get('1', 0)`: the defaulted
lookup for the applicant's own declared branch. -/
def declared_branch_incm (star_dict : IncomeTable) (year_d branch_pl : String) : Int :=
  ((alistGet ((alistGet ((alistGet star_dict year_d).getD []) branch_pl).getD [])
      "1").getD 0)

/-- Maximum of a list accumulator. -/
def listMax : Int → List Int → Int
  | m, [] => m
  | m, x :: xs => listMax (max m x) xs

/-- Python `max(presumed_income_set)` over a set of numbers and possibly
`None`: empty set raises ValueError; the singleton `{None}` is returned
without any comparison; a set with `None` and at least one number raises
TypeError (`None` is unorderable against int); an all-numeric set gives its
maximum. -/
def pyMax : Bool × List Int → Except PyErr (Option Int)
  | (false, []) => Except.error PyErr.valueError
  | (true, []) => Except.ok none
  | (true, _ :: _) => Except.error PyErr.typeError
  | (false, x :: xs) => Except.ok (some (listMax x xs))

/-- `_get_presumed_income` (identical in
`base_transformer.get_presumed_income`): resolve the year bucket with
`find_le`, run the brand loop, optionally add the declared-branch candidate
when `int(irpf_dict.get('ESTR')) > 0`, and return `max` of the set.
`irpf_dict.get('ESTR')` being absent would give `int(None)`: TypeError. -/
def get_presumed_income (year : Int) (irpf_dict : List (String × String))
    (branch_pl : String) (star_dict : IncomeTable) (year_list : List Int) :
    Except PyErr (Option Int) :=
  match find_le year_list year with
  | Except.error e => Except.error e
  | Except.ok yb =>
    match addCandidates star_dict (toString yb) irpf_dict (false, []) with
    | Except.error e => Except.error e
    | Except.ok s =>
      match alistGet irpf_dict "ESTR" with
      | none => Except.error PyErr.typeError
      | some estrS =>
        match pyInt estrS with
        | Except.error e => Except.error e
        | Except.ok estr =>
          pyMax (if estr > 0 then
              addCand s (some (declared_branch_incm star_dict (toString yb) branch_pl))
            else s)

/-! ## HistoryAggregator (set_star_count) -/

/-- One classified, exploded row as consumed by `set_star_count`:
the group keys, the exploded `tax_report_data` payload (null cells are not
counted by the `'count'` aggregation) and the free text that
`_get_irpf_status` classified. -/
structure ClassifiedRow where
  cpf : String
  time_stamp : String
  tax_report_data : Option String
  full_status_text : Option String

/-- The rows of one `groupby(['cpf', 'time_stamp'])` group. -/
def groupRows (rows : List ClassifiedRow) (cpf ts : String) : List ClassifiedRow :=
  rows.filter (fun r => r.cpf == cpf && r.time_stamp == ts)

/-- `number_declaration=('tax_report_data', 'count')`: pandas `count` counts
the non-null cells of the column. -/
def number_declaration (rows : List ClassifiedRow) : Nat :=
  (rows.filter (fun r => r.tax_report_data.isSome)).length

/-- `number_tax_refund=('irpf_tax_refund', 'sum')` composed with the
classification stage that produced the `irpf_tax_refund` column. -/
def number_tax_refund (rows : List ClassifiedRow) : Nat :=
  (rows.map (fun r => (get_irpf_status_row r.full_status_text).irpf_tax_refund)).sum

/-! ## Helper lemmas -/

/-- Every flag produced by `apply_regex_series` is 0 or 1 (`np.where(c, 1, 0)`). -/
theorem apply_regex_series_01 (rx : List (List PTok)) (v : Option String)
    (hn : Bool) : apply_regex_series rx v hn = 0 ∨ apply_regex_series rx v hn = 1 := by
  cases v with
  | none =>
    cases hn with
    | false => exact Or.inr rfl
    | true => exact Or.inl rfl
  | some s =>
    by_cases h : reSearch rx s
    · exact Or.inr (by simp [apply_regex_series, h])
    · exact Or.inl (by simp [apply_regex_series, h])

/-- `List.getD` agrees with `List.get` on in-range indices. -/
theorem getD_eq_get (l : List Int) : ∀ (n : Nat) (h : n < l.length) (d : Int),
    l.getD n d = l.get ⟨n, h⟩ := by
  induction l with
  | nil => intro n h _; exact absurd h (by simp)
  | cons a t ih =>
    intro n h d
    cases n with
    | zero => rfl
    | succ m => exact ih m (by simpa using h) d

/-- Monotone access into a `≤`-sorted list. -/
theorem sorted_get_le {ls : List Int} (hs : List.Sorted (· ≤ ·) ls)
    {i j : Nat} (hi : i < ls.length) (hj : j < ls.length) (hij : i ≤ j) :
    ls.get ⟨i, hi⟩ ≤ ls.get ⟨j, hj⟩ :=
  hs.rel_get_of_le hij

/-- Invariant of the `bisect_right` loop: starting from a window `[lo, hi)`
whose outside already satisfies the bisection property, the returned index
splits the whole list into a prefix of elements `≤ x` and a suffix of
elements `> x`. -/
theorem bisectAux_spec (ls : List Int) (x : Int) (hs : List.Sorted (· ≤ ·) ls) :
    ∀ (fuel lo hi : Nat), hi - lo ≤ fuel → lo ≤ hi → hi ≤ ls.length →
    (∀ (j : Nat) (hj : j < ls.length), j < lo → ls.get ⟨j, hj⟩ ≤ x) →
    (∀ (j : Nat) (hj : j < ls.length), hi ≤ j → x < ls.get ⟨j, hj⟩) →
    lo ≤ bisectAux ls x fuel lo hi ∧ bisectAux ls x fuel lo hi ≤ hi ∧
    (∀ (j : Nat) (hj : j < ls.length), j < bisectAux ls x fuel lo hi →
      ls.get ⟨j, hj⟩ ≤ x) ∧
    (∀ (j : Nat) (hj : j < ls.length), bisectAux ls x fuel lo hi ≤ j →
      x < ls.get ⟨j, hj⟩) := by
  intro fuel
  induction fuel with
  | zero =>
    intro lo hi hf hlh hhl hlow hhigh
    have he : lo = hi := by omega
    subst he
    exact ⟨Nat.le_refl _, Nat.le_refl _, hlow, hhigh⟩
  | succ fuel ih =>
    intro lo hi hf hlh hhl hlow hhigh
    have hunfold : bisectAux ls x (fuel + 1) lo hi =
        if lo < hi then
          if x < ls.getD ((lo + hi) / 2) 0 then bisectAux ls x fuel lo ((lo + hi) / 2)
          else bisectAux ls x fuel ((lo + hi) / 2 + 1) hi
        else lo := rfl
    by_cases h : lo < hi
    · have hmidlt : (lo + hi) / 2 < hi := by omega
      have hmidlo : lo ≤ (lo + hi) / 2 := by omega
      have hmidlen : (lo + hi) / 2 < ls.length := Nat.lt_of_lt_of_le hmidlt hhl
      have hg : ls.getD ((lo + hi) / 2) 0 = ls.get ⟨(lo + hi) / 2, hmidlen⟩ :=
        getD_eq_get ls _ hmidlen 0
      by_cases hx : x < ls.getD ((lo + hi) / 2) 0
      · have hxg : x < ls.get ⟨(lo + hi) / 2, hmidlen⟩ := by rw [← hg]; exact hx
        have hstep : bisectAux ls x (fuel + 1) lo hi = bisectAux ls x fuel lo ((lo + hi) / 2) := by
          rw [hunfold, if_pos h, if_pos hx]
        have hrec := ih lo ((lo + hi) / 2) (by omega) hmidlo (Nat.le_of_lt hmidlen)
          hlow
          (fun j hj hge => Int.lt_of_lt_of_le hxg (sorted_get_le hs hmidlen hj hge))
        rw [hstep]
        exact ⟨hrec.1, Nat.le_trans hrec.2.1 (Nat.le_of_lt hmidlt), hrec.2.2⟩
      · have hxle : ls.get ⟨(lo + hi) / 2, hmidlen⟩ ≤ x := by
          rw [← hg]; exact Int.not_lt.mp hx
        have hstep : bisectAux ls x (fuel + 1) lo hi = bisectAux ls x fuel ((lo + hi) / 2 + 1) hi := by
          rw [hunfold, if_pos h, if_neg hx]
        have hrec := ih ((lo + hi) / 2 + 1) hi (by omega) (by omega) hhl
          (fun j hj hlt =>
            Int.le_trans (sorted_get_le hs hj hmidlen (by omega)) hxle)
          hhigh
        rw [hstep]
        exact ⟨by omega, hrec.2.1, hrec.2.2⟩
    · have hstep : bisectAux ls x (fuel + 1) lo hi = lo := by
        rw [hunfold, if_neg h]
      have he : lo = hi := by omega
      rw [hstep]
      subst he
      exact ⟨Nat.le_refl _, Nat.le_refl _, hlow, hhigh⟩

/-- `bisect_right` splits a sorted list at the boundary of the elements `≤ x`. -/
theorem bisect_right_spec (ls : List Int) (x : Int)
    (hs : List.Sorted (· ≤ ·) ls) :
    bisect_right ls x ≤ ls.length ∧
    (∀ (j : Nat) (hj : j < ls.length), j < bisect_right ls x →
      ls.get ⟨j, hj⟩ ≤ x) ∧
    (∀ (j : Nat) (hj : j < ls.length), bisect_right ls x ≤ j →
      x < ls.get ⟨j, hj⟩) := by
  have h := bisectAux_spec ls x hs ls.length 0 ls.length (by omega) (Nat.zero_le _)
    (Nat.le_refl _)
    (fun j _ hlt => absurd hlt (Nat.not_lt_zero j))
    (fun j hj hge => absurd hj (by omega))
  exact ⟨h.2.1, h.2.2⟩

/-- An element produced by Python indexing is a member of the list. -/
theorem pyIndex_mem {α : Type} {l : List α} {i : Int} {v : α}
    (h : pyIndex l i = some v) : v ∈ l := by
  unfold pyIndex at h
  split at h
  · exact (Option.some.inj h) ▸ List.get_mem l _ _
  · exact absurd h (by simp)

/-- The monotonicity sweep over the whole padded 16x16 table, checked cell by
cell. -/
theorem star_mono_nat : ∀ d : Nat, d ≤ 15 → ∀ r1 : Nat, r1 ≤ 15 →
    ∀ r2 : Nat, r2 ≤ 15 →
    (r1 ≤ r2 ∧ retrieve_stars (d : Int) (r1 : Int) ≠ -1 ∧
      retrieve_stars (d : Int) (r2 : Int) ≠ -1) →
    retrieve_stars (d : Int) (r1 : Int) ≤ retrieve_stars (d : Int) (r2 : Int) := by
  decide

/-- Python indexing raises IndexError (modelled as `none`) exactly when even
the negative-index normalisation leaves the index outside the list. -/
theorem pyIndex_out_of_range {α : Type} (l : List α) (i : Int)
    (h : i < -(l.length : Int) ∨ (l.length : Int) ≤ i) : pyIndex l i = none := by
  have hc : ¬ (0 ≤ pyNorm l.length i ∧ pyNorm l.length i < (l.length : Int)) := by
    unfold pyNorm
    rcases h with h | h
    · rw [if_pos (by omega : i < 0)]
      omega
    · by_cases hneg : i < 0
      · rw [if_pos hneg]
        omega
      · rw [if_neg hneg]
        omega
  unfold pyIndex
  rw [dif_neg hc]

/-! ## Claim theorems -/

/-- Claim C7: for every declaration count of at least 16 and every refund
count, `_retrieve_stars` returns 5 independently of the lookup table. -/
theorem retrieve_stars_saturation (d r : Int) (h : 16 ≤ d) :
    retrieve_stars d r = 5 := by
  unfold retrieve_stars
  rw [if_pos h]

/-- Witness for C7: the saturation rule at declarations = 16, refunds = 999. -/
theorem retrieve_stars_saturation_witness : retrieve_stars 16 999 = 5 :=
  retrieve_stars_saturation 16 999 (by decide)

/-- Claim C10: the star-rating lookup is total on all integer inputs,
including negative ones, and always lands in {-1, 0, 1, 2, 3, 4, 5}; the
IndexError branch (pyIndex = none) is mapped to -1, so no exception
propagates. -/
theorem retrieve_stars_total_range (d r : Int) :
    retrieve_stars d r ∈ ([-1, 0, 1, 2, 3, 4, 5] : List Int) := by
  have hcells : ∀ row ∈ star_array, ∀ v ∈ row,
      v ∈ ([-1, 0, 1, 2, 3, 4, 5] : List Int) := by decide
  unfold retrieve_stars
  by_cases h : d ≥ 16
  · rw [if_pos h]
    decide
  · rw [if_neg h]
    rcases hrow : pyIndex star_array d with _ | row
    · show (-1 : Int) ∈ ([-1, 0, 1, 2, 3, 4, 5] : List Int)
      decide
    · show (match pyIndex row r with
        | none => (-1 : Int)
        | some v => v) ∈ ([-1, 0, 1, 2, 3, 4, 5] : List Int)
      rcases hv : pyIndex row r with _ | v
      · show (-1 : Int) ∈ ([-1, 0, 1, 2, 3, 4, 5] : List Int)
        decide
      · show v ∈ ([-1, 0, 1, 2, 3, 4, 5] : List Int)
        exact hcells row (pyIndex_mem hrow) v (pyIndex_mem hv)

/-- Counterexample for C3: the index -1 is outside the bounds [0, 16) of the
padded 16-row matrix, yet (declarations, refunds) = (-1, 0) yields 4, not the
-1 failure sentinel: Python resolves the negative index to row 15. -/
theorem retrieve_stars_negative_index_counterexample :
    retrieve_stars (-1) 0 = 4 ∧ ¬ (0 ≤ (-1 : Int)) ∧ (4 : Int) ≠ -1 := by
  decide

/-- Claim C3 (amended): for declarations < 16, the rating is the -1 failure
sentinel — and no exception escapes — whenever either index is out of bounds
in Python's sense, i.e. still outside the padded 16x16 matrix after negative
indices are counted from the end: declarations < -16, refunds < -16 or
refunds ≥ 16. -/
theorem retrieve_stars_out_of_range_sentinel (d r : Int) (hd : d < 16)
    (hout : d < -16 ∨ r < -16 ∨ 16 ≤ r) : retrieve_stars d r = -1 := by
  have hlen : star_array.length = 16 := rfl
  have hrows : ∀ row ∈ star_array, row.length = 16 := by decide
  unfold retrieve_stars
  rw [if_neg (by omega : ¬ d ≥ 16)]
  rcases hout with h | h | h
  · rw [pyIndex_out_of_range star_array d (Or.inl (by omega))]
  · rcases hrow : pyIndex star_array d with _ | row
    · rfl
    · have hrl : row.length = 16 := hrows row (pyIndex_mem hrow)
      show (match pyIndex row r with
        | none => (-1 : Int)
        | some v => v) = -1
      rw [pyIndex_out_of_range row r (Or.inl (by omega))]
  · rcases hrow : pyIndex star_array d with _ | row
    · rfl
    · have hrl : row.length = 16 := hrows row (pyIndex_mem hrow)
      show (match pyIndex row r with
        | none => (-1 : Int)
        | some v => v) = -1
      rw [pyIndex_out_of_range row r (Or.inr (by omega))]

/-- Witness for C3 (amended): declarations = -17 is out of range even for
Python's negative indexing, so the result is the sentinel. -/
theorem retrieve_stars_out_of_range_sentinel_witness :
    retrieve_stars (-17) 0 = -1 :=
  retrieve_stars_out_of_range_sentinel (-17) 0 (by decide) (Or.inl (by decide))

/-- Claim C6: for a fixed declaration count 0 ≤ d ≤ 15 the rating is
non-decreasing in the refund count within the table bounds; the only
violations sit at cells holding the -1 padding sentinel, which the
hypotheses exclude. -/
theorem retrieve_stars_monotone_in_refunds (d r1 r2 : Int)
    (hd0 : 0 ≤ d) (hd : d ≤ 15) (hr0 : 0 ≤ r1) (hr : r1 ≤ r2) (hr2 : r2 ≤ 15)
    (h1 : retrieve_stars d r1 ≠ -1) (h2 : retrieve_stars d r2 ≠ -1) :
    retrieve_stars d r1 ≤ retrieve_stars d r2 := by
  have e1 : ((d.toNat : Int)) = d := Int.toNat_of_nonneg hd0
  have e2 : ((r1.toNat : Int)) = r1 := Int.toNat_of_nonneg hr0
  have e3 : ((r2.toNat : Int)) = r2 := Int.toNat_of_nonneg (Int.le_trans hr0 hr)
  have h := star_mono_nat d.toNat (by omega) r1.toNat (by omega) r2.toNat (by omega)
  rw [e1, e2, e3] at h
  exact h ⟨by omega, h1, h2⟩

/-- Witness for C6: in row 7 the rating rises from 2 at one refund to 3 at
three refunds. -/
theorem retrieve_stars_monotone_in_refunds_witness :
    retrieve_stars 7 1 ≤ retrieve_stars 7 3 :=
  retrieve_stars_monotone_in_refunds 7 1 3 (by decide) (by decide) (by decide)
    (by decide) (by decide) (by decide) (by decide)

/-- Claim C5: for every classified row, the derived `irpf_tax_to_pay` flag is
1 exactly when the other three flags are all 0 — the logical NOR of error,
not_declared and tax_refund. -/
theorem tax_to_pay_is_nor (t : Option String) :
    (get_irpf_status_row t).irpf_tax_to_pay = 1 ↔
      (get_irpf_status_row t).irpf_extraction_error = 0 ∧
      (get_irpf_status_row t).irpf_not_declared = 0 ∧
      (get_irpf_status_row t).irpf_tax_refund = 0 := by
  rcases apply_regex_series_01 regex_not_consulted t false with he | he <;>
    rcases apply_regex_series_01 regex_not_declared t true with hn | hn <;>
      rcases apply_regex_series_01 regex_tax_refund t true with hr | hr <;>
        simp [get_irpf_status_row, he, hn, hr]

/-- Counterexample for C2: on null input the error matcher runs with
`handle_nan=False`, `str.contains` yields NaN and `np.where` treats the NaN
condition as truthy, so the flag is 1, not the claimed 0. -/
theorem classify_null_error_flag_counterexample :
    (get_irpf_status_row none).irpf_extraction_error = 1 ∧
    (get_irpf_status_row none).irpf_extraction_error ≠ 0 := by
  decide

/-- Claim C2 (amended): classification of the empty string yields error = 1
and all other flags 0; classification of null input also yields error = 1
(the no-coercion mode turns the NaN contains-result into a match), while the
not_declared and tax_refund matchers coerce null to non-match (flag 0), so
tax_to_pay is 0 on both inputs. -/
theorem classify_empty_and_null_flags :
    get_irpf_status_row (some "") =
      { irpf_extraction_error := 1, irpf_not_declared := 0,
        irpf_tax_refund := 0, irpf_tax_to_pay := 0 } ∧
    get_irpf_status_row none =
      { irpf_extraction_error := 1, irpf_not_declared := 0,
        irpf_tax_refund := 0, irpf_tax_to_pay := 0 } := by
  decide

/-- Claim C9: two exploded rows for (cpf "A1", timestamp 2020-01-01) with
status texts "" and "reagendada para crédito no banco": classification
followed by the groupby aggregation gives number_declaration = 2 and
number_tax_refund = 1 (only the second text matches the refund pattern), and
irpf_tax_to_pay = 0 on both rows — the first because error = 1, the second
because tax_refund = 1. -/
theorem classification_aggregation_scenario :
    number_declaration (groupRows [
        ⟨"A1", "2020-01-01", some "year2019", some ""⟩,
        ⟨"A1", "2020-01-01", some "year2020",
          some "reagendada para crédito no banco"⟩] "A1" "2020-01-01") = 2 ∧
    number_tax_refund (groupRows [
        ⟨"A1", "2020-01-01", some "year2019", some ""⟩,
        ⟨"A1", "2020-01-01", some "year2020",
          some "reagendada para crédito no banco"⟩] "A1" "2020-01-01") = 1 ∧
    (get_irpf_status_row (some "")).irpf_tax_refund = 0 ∧
    (get_irpf_status_row (some "")).irpf_extraction_error = 1 ∧
    (get_irpf_status_row (some "")).irpf_tax_to_pay = 0 ∧
    (get_irpf_status_row
      (some "reagendada para crédito no banco")).irpf_tax_refund = 1 ∧
    (get_irpf_status_row
      (some "reagendada para crédito no banco")).irpf_tax_to_pay = 0 := by
  decide

/-- Claim C8: a brand entry whose integer value exceeds 7 is looked up under
the clamped value bucket "7": its candidate equals the candidate computed for
the literal bucket "7". -/
theorem candidate_uses_clamped_bucket (star_dict : IncomeTable) (year_d : String)
    (k v : String) (n : Int) (hv : pyInt v = Except.ok n) (h7 : 7 < n) :
    presumed_income_candidate star_dict year_d (k, v) =
      presumed_income_candidate star_dict year_d (k, "7") := by
  have h77 : pyInt "7" = Except.ok 7 := rfl
  simp only [presumed_income_candidate, hv, h77, if_pos h7, ite_self]

/-- Witness for C8: the declaration count 9 for brand HSBC is looked up under
bucket "7", not "9" — even when the table carries a different value at "9". -/
theorem candidate_uses_clamped_bucket_witness :
    presumed_income_candidate [("2020", [("HSBC", [("7", 70), ("9", 90)])])]
        "2020" ("HSBC", "9") =
      presumed_income_candidate [("2020", [("HSBC", [("7", 70), ("9", 90)])])]
        "2020" ("HSBC", "7") :=
  candidate_uses_clamped_bucket _ "2020" "HSBC" "9" 9 rfl (by decide)

/-- Claim C1 (code behaviour at the failing input): when every step-2 lookup
returns a missing-key result, the candidate set is {None} and
`max({None})` returns None without raising — the resolver hands the caller a
null income instead of surfacing an error.  Here the table has the year
bucket "2020" and both brand keys, but no value buckets, and ESTR = "0". -/
theorem resolver_masks_empty_candidates :
    get_presumed_income 2020 [("HSBC", "1"), ("ESTR", "0")] "PRIM"
      [("2020", [("HSBC", []), ("ESTR", [])])] [2020] = Except.ok none := by
  rfl

/-- Claim C4: on a sorted year list, `find_le` returns the greatest element
that is ≤ the query year, and raises ValueError — rather than returning a
default — when no element qualifies. -/
theorem find_le_greatest_le (ls : List Int) (x : Int)
    (hs : List.Sorted (· ≤ ·) ls) :
    match find_le ls x with
    | Except.ok m => m ∈ ls ∧ m ≤ x ∧ ∀ y ∈ ls, y ≤ x → y ≤ m
    | Except.error e => e = PyErr.valueError ∧ ∀ y ∈ ls, x < y := by
  obtain ⟨hlen, hlow, hhigh⟩ := bisect_right_spec ls x hs
  by_cases hz : bisect_right ls x = 0
  · have hfe : find_le ls x = Except.error PyErr.valueError := by
      unfold find_le
      rw [if_neg (by simp [hz])]
    rw [hfe]
    refine ⟨rfl, ?_⟩
    intro y hy
    obtain ⟨⟨j, hjl⟩, rfl⟩ := List.mem_iff_get.mp hy
    exact hhigh j hjl (by omega)
  · have hi1 : bisect_right ls x - 1 < ls.length := by omega
    have hfo : find_le ls x = Except.ok (ls.get ⟨bisect_right ls x - 1, hi1⟩) := by
      unfold find_le
      rw [if_pos hz, getD_eq_get ls _ hi1 0]
    rw [hfo]
    refine ⟨List.get_mem ls _ _, hlow _ hi1 (by omega), ?_⟩
    intro y hy hyx
    obtain ⟨⟨j, hjl⟩, rfl⟩ := List.mem_iff_get.mp hy
    rcases Nat.lt_or_ge j (bisect_right ls x) with hj | hj
    · exact sorted_get_le hs hjl hi1 (by omega)
    · exact absurd hyx (Int.not_le.mpr (hhigh j hjl hj))

/-- Witness for C4: with year_keys = [2018, 2020] and year = 2019 the bucket
used is 2018, the greatest key ≤ 2019. -/
theorem find_le_greatest_le_witness :
    find_le [2018, 2020] 2019 = Except.ok 2018 ∧
    (2018 : Int) ∈ ([2018, 2020] : List Int) ∧ (2018 : Int) ≤ 2019 ∧
    ∀ y ∈ ([2018, 2020] : List Int), y ≤ 2019 → y ≤ 2018 := by
  have hs : List.Sorted (· ≤ ·) ([2018, 2020] : List Int) := by decide
  have h := find_le_greatest_le [2018, 2020] 2019 hs
  have he : find_le [2018, 2020] 2019 = Except.ok 2018 := rfl
  rw [he] at h
  exact ⟨he, h.1, h.2.1, h.2.2⟩
